import Mathlib

/-! Verification of the ATENA-AI meta-agent / self-improvement control loop.

Shallow embedding of `src/meta_agent/self_improvement.py` and
`src/meta_agent/meta_agent.py`.  Python `dict`s keyed by strings are embedded
as insertion-ordered association lists (`List (String × α)`); Python floats
are embedded as rationals (`Rat`), which is exact for every constant the code
manipulates.
-/

set_option autoImplicit false

namespace AtenaAI

/-! Dictionary primitives.

Here `dget` is `dict.get` / `dict[k]` (first matching key); `dset` is
`dict[k] = v`, which updates an existing key in place or appends a new one at
the end, exactly like a Python `dict` preserving insertion order. -/

def dget {α : Type} : List (String × α) → String → Option α
  | [], _ => none
  | (k', v) :: t, k => if k' = k then some v else dget t k

def dset {α : Type} : List (String × α) → String → α → List (String × α)
  | [], k, v => [(k, v)]
  | (k', v') :: t, k, v => if k' = k then (k, v) :: t else (k', v') :: dset t k v

theorem dget_dset_self {α : Type} (c : List (String × α)) (k : String) (v : α) :
    dget (dset c k v) k = some v := by
  induction c with
  | nil => simp [dget, dset]
  | cons h t ih =>
    obtain ⟨k', v'⟩ := h
    by_cases hk : k' = k
    · simp [dget, dset, hk]
    · simp [dget, dset, hk, ih]

theorem dget_dset_ne {α : Type} (c : List (String × α)) (k k' : String) (v : α)
    (h : k' ≠ k) : dget (dset c k v) k' = dget c k' := by
  have hk : k ≠ k' := Ne.symm h
  induction c with
  | nil => simp [dget, dset, hk]
  | cons hd t ih =>
    obtain ⟨k₀, v₀⟩ := hd
    by_cases h₀ : k₀ = k
    · subst h₀
      simp [dget, dset, hk]
    · simp [dget, dset, h₀, ih]

/-- Keys of the form `"{module}_{param}"` are injective in the parameter component
(for a fixed module), since string append concatenates the data lists. -/
theorem key_inj (m a b : String) (h : m ++ "_" ++ a = m ++ "_" ++ b) : a = b := by
  have hd := congrArg String.data h
  simp only [String.data_append] at hd
  exact congrArg String.mk (List.append_cancel_left hd)

/-! Data model of `self_improvement.py`. -/

/-- The `OptimizationType` enum. -/
inductive OptimizationType where
  | PARAMETER_TUNING
  | MODEL_UPDATE
  | CACHE_OPTIMIZATION
  | API_OPTIMIZATION
  | RESOURCE_ALLOCATION
  deriving DecidableEq, Repr

/-- The shape of the `ImprovementAction`s consumed by
`_determine_optimization_type` and `_generate_optimization`
(these read `action.action_type`, `action.priority` and
`action.parameters['metric']`). -/
structure SIAction where
  action_type : String
  priority : Nat
  parameters : List (String × String)
  deriving DecidableEq, Repr

/-- An optimization proposal, the dict built by `_generate_optimization`:
`{type, module, parameters, rollback_data}`.  `rollback_data = none` models a
proposal dict that lacks the `'rollback_data'` key (reading it raises
`KeyError`). -/
structure Proposal where
  otype : OptimizationType
  module : String
  parameters : List (String × Rat)
  rollback_data : Option (List (String × Rat))
  deriving DecidableEq, Repr

/-- Embedding of `OptimizationResult` (timestamp omitted; it does not affect any claim). -/
structure OptimizationResult where
  optimization_type : OptimizationType
  target_module : String
  changes_made : List (String × (Option Rat × Rat))
  success : Bool
  rollback_data : Option (List (String × Rat))
  deriving DecidableEq, Repr

/-- The shared configuration store `self.config`: a string-keyed dict of
numeric tunables. -/
abbrev Config := List (String × Rat)

/-- Embedding of `self.optimization_configs` from `SelfImprovement.__init__`:
per-module tunable parameters with their `(min, max)` safe ranges. -/
def optimizationConfigs : List (String × List (String × (Rat × Rat))) :=
  [("business_intelligence",
     [("cache_timeout", (300, 7200)),
      ("min_alert_priority", (2, 4)),
      ("monitoring_interval", (60, 600)),
      ("max_concurrent_requests", (5, 20))]),
   ("dialogue_manager",
     [("context_timeout", (300, 900)),
      ("max_conversation_turns", (5, 15)),
      ("confidence_threshold", (6/10, 9/10))]),
   ("api_client",
     [("request_timeout", (5, 30)),
      ("retry_attempts", (2, 5)),
      ("backoff_factor", (1, 4))])]

/-- Embedding of `self.min_improvement_threshold = 0.05` from `SelfImprovement.__init__`. -/
def minImprovementThreshold : Rat := 5/100

/-! Embedding of `_determine_optimization_type`. -/

/-- Embedding of `_determine_optimization_type(actions)` (`self_improvement.py:183`).
The source collects `action_types` as a list and the touched metrics as a
set; membership in that set is membership in the list of
`action.parameters['metric']` values. -/
def determineOptimizationType (actions : List SIAction) : OptimizationType :=
  let action_types := actions.map (·.action_type)
  if action_types.contains "emergency_optimization" then
    .PARAMETER_TUNING
  else if action_types.contains "update_decision_weights" then
    .MODEL_UPDATE
  else
    let metrics := actions.filterMap (fun a => dget a.parameters "metric")
    if metrics.contains "api_latency" then
      .API_OPTIMIZATION
    else if 3 ≤ actions.length then
      .RESOURCE_ALLOCATION
    else
      .PARAMETER_TUNING

/-! Embedding of `_generate_optimization` (PARAMETER_TUNING branch). -/

/-- Adjustment magnitude chosen inside the tuning loop:
`0.3` if any action has `priority >= 4`, else `0.1`. -/
def tuningAdjustment (actions : List SIAction) : Rat :=
  if actions.any (fun a => 4 ≤ a.priority) then 3/10 else 1/10

/-- Embedding of Python `s.endswith(suffix)` as a suffix test on the
character lists. -/
def pyEndsWith (s suffix : String) : Bool :=
  suffix.data.isSuffixOf s.data

/-- New value for one tunable parameter in the `PARAMETER_TUNING` branch:
parameters whose name ends with `'timeout'` are decreased (clamped below at
`min_val`), all others increased (clamped above at `max_val`). -/
def tunedValue (actions : List SIAction) (param : String) (min_val max_val current_val : Rat) :
    Rat :=
  let adjustment := tuningAdjustment actions
  if pyEndsWith param "timeout" then
    max min_val (current_val * (1 - adjustment))
  else
    min max_val (current_val * (1 + adjustment))

/-- The `PARAMETER_TUNING` loop of `_generate_optimization`
(`self_improvement.py:239`): for each registered `(param, (min, max))` of the
module, skip it when `self.config` has no `"{module}_{param}"` entry,
otherwise record the current value into `rollback_data` and the adjusted
value into `parameters`.  The loop inserts one entry per registered
parameter, in registration order. -/
def parameterTuningEntries (cfg : Config) (module : String) (actions : List SIAction)
    (entries : List (String × (Rat × Rat))) :
    List (String × Rat) × List (String × Rat) :=
  (entries.filterMap (fun e =>
     (dget cfg (module ++ "_" ++ e.1)).map
       (fun current_val => (e.1, tunedValue actions e.1 e.2.1 e.2.2 current_val))),
   entries.filterMap (fun e =>
     (dget cfg (module ++ "_" ++ e.1)).map (fun current_val => (e.1, current_val))))

/-- Embedding of `_generate_optimization(module, opt_type, actions, ...)` restricted to the
`PARAMETER_TUNING` optimization type: returns `None` when the module has no
registered tunables, otherwise the proposal dict. -/
def generateParameterTuning (cfg : Config) (module : String) (actions : List SIAction) :
    Option Proposal :=
  match dget optimizationConfigs module with
  | none => none
  | some config =>
    let r := parameterTuningEntries cfg module actions config
    some { otype := .PARAMETER_TUNING, module := module,
           parameters := r.1, rollback_data := some r.2 }

/-! Embedding of `_apply_optimization`. -/

/-- The write loop of `_apply_optimization` (`self_improvement.py:310`):
sequentially writes each `(param, value)` into the store under key
`"{module}_{param}"`, recording `{old, new}` into `changes_made`. -/
def applyWrites (module : String) (cfg : Config) (params : List (String × Rat)) :
    Config × List (String × (Option Rat × Rat)) :=
  params.foldl
    (fun acc pv =>
      let key := module ++ "_" ++ pv.1
      (dset acc.1 key pv.2, acc.2 ++ [(pv.1, (dget acc.1 key, pv.2))]))
    (cfg, [])

/-- Embedding of `_apply_optimization(optimization)` (`self_improvement.py:300`).
All parameter writes happen first; only then is
`optimization['rollback_data']` read to build the result.  When that key is
missing the `KeyError` lands in the `except` branch, which returns
`success=False` with empty `changes_made` — and performs no revert, so the
store keeps every write already made. -/
def applyOptimization (cfg : Config) (opt : Proposal) : Config × OptimizationResult :=
  let r := applyWrites opt.module cfg opt.parameters
  match opt.rollback_data with
  | some rb =>
    (r.1, { optimization_type := opt.otype, target_module := opt.module,
            changes_made := r.2, success := true, rollback_data := some rb })
  | none =>
    (r.1, { optimization_type := opt.otype, target_module := opt.module,
            changes_made := [], success := false, rollback_data := none })

/-! Embedding of `_monitor_optimization_impact` and `_should_rollback`. -/

/-- The impact computation of `_monitor_optimization_impact`
(`self_improvement.py:362`): for each metric of the current performance that
also has a baseline, the relative delta `(current - baseline) / baseline`
when `baseline > 0`, else `0.0`. -/
def computeImpact (current baseline : List (String × Rat)) : List (String × Rat) :=
  current.filterMap (fun mc =>
    match dget baseline mc.1 with
    | none => none
    | some b => some (mc.1, if 0 < b then (mc.2 - b) / b else 0))

/-- Embedding of `_should_rollback(impact)` (`self_improvement.py:380`): `True` on an empty
impact dict, otherwise `True` iff the average impact is negative or below
`min_improvement_threshold`. -/
def shouldRollback (impact : List (String × Rat)) : Bool :=
  if impact = [] then
    true
  else
    let avg_impact := (impact.map (·.2)).sum / impact.length
    decide (avg_impact < 0) || decide (avg_impact < minImprovementThreshold)

/-! Embedding of `_rollback_optimization`. -/

/-- Embedding of `_rollback_optimization(optimization)` (`self_improvement.py:397`):
a no-op when `rollback_data` is `None` or empty, otherwise restores every
`(param, value)` of `rollback_data` under key `"{module}_{param}"`. -/
def rollbackOptimization (cfg : Config) (opt : OptimizationResult) : Config :=
  match opt.rollback_data with
  | none => cfg
  | some rb =>
    if rb = [] then cfg
    else rb.foldl (fun c pv => dset c (opt.target_module ++ "_" ++ pv.1) pv.2) cfg

/-! Data model of `meta_agent.py`. -/

/-- The `MetricType` enum (`meta_agent.py:16`). -/
inductive MetricType where
  | RESPONSE_TIME
  | LATENCY
  | CPU_USAGE
  | MEMORY_USAGE
  | ERROR_RATE
  | THROUGHPUT
  | ACCURACY
  | SUCCESS_RATE
  | USER_SATISFACTION
  deriving DecidableEq, Repr

/-- Enum iteration order of `for metric_type in MetricType` (definition order). -/
def MetricType.all : List MetricType :=
  [.RESPONSE_TIME, .LATENCY, .CPU_USAGE, .MEMORY_USAGE, .ERROR_RATE,
   .THROUGHPUT, .ACCURACY, .SUCCESS_RATE, .USER_SATISFACTION]

/-- Embedding of `SystemMetrics` (`meta_agent.py:44`); the `resource_usage` dict and the
timestamp play no role in any claim and are omitted. -/
structure SystemMetrics where
  response_time : Rat
  accuracy : Rat
  error_rate : Rat
  success_rate : Rat
  latency : Rat
  cpu_usage : Rat
  memory_usage : Rat
  throughput : Rat
  user_satisfaction : Rat
  deriving DecidableEq, Repr

/-- Embedding of `SystemMetrics.get_metric_value` (`meta_agent.py:74`). -/
def getMetricValue (m : SystemMetrics) : MetricType → Rat
  | .RESPONSE_TIME => m.response_time
  | .ACCURACY => m.accuracy
  | .ERROR_RATE => m.error_rate
  | .SUCCESS_RATE => m.success_rate
  | .LATENCY => m.latency
  | .CPU_USAGE => m.cpu_usage
  | .MEMORY_USAGE => m.memory_usage
  | .THROUGHPUT => m.throughput
  | .USER_SATISFACTION => m.user_satisfaction

/-- The `ImprovementAction` built by `MetaAgent._trigger_improvement`
(`meta_agent.py:261`): `action_id` (a timestamped string) and the timestamp
are omitted; `parameters` is flattened into its three entries
`current_value`, `target_value`, `threshold`.  Note the dataclass has no
priority field. -/
structure MetaImprovementAction where
  metric_type : MetricType
  action_type : String
  target_metric : MetricType
  current_value : Rat
  target_value : Rat
  threshold : Rat
  deriving DecidableEq, Repr

/-- The `MetaAgent` state touched by the metric-recording path. -/
structure MetaAgentState where
  metrics_history : List SystemMetrics
  performance_history : List SystemMetrics
  improvement_history : List MetaImprovementAction
  improvement_threshold : Rat
  deriving DecidableEq, Repr

/-- Embedding of `self.evaluation_window = 10`. -/
def evaluationWindow : Nat := 10

/-- Embedding of `self.min_samples_for_evaluation = 5`. -/
def minSamplesForEvaluation : Nat := 5

/-- Python slice `l[-n:]`. -/
def lastN {α : Type} (n : Nat) (l : List α) : List α := l.drop (l.length - n)

/-- Embedding of `_calculate_metric_stats` (`meta_agent.py:250`), returning
`(mean, trend)`; the variance it also computes is never read. -/
def calculateMetricStats (history : List SystemMetrics) (t : MetricType) : Rat × Rat :=
  let values := (lastN evaluationWindow history).map (fun m => getMetricValue m t)
  (values.sum / values.length,
   if 1 < values.length then
     (values.getLast?.getD 0 - values.head?.getD 0) / values.length
   else 0)

/-- The `ImprovementAction` appended by `_trigger_improvement`
(`meta_agent.py:261`): `action_type` is always `"optimization"`;
`target_value = stats.get("mean", 0) + stats.get("std", 0)` where the stats
dict has no `"std"` key, so the second summand is the default `0`. -/
def improvementActionFor (history : List SystemMetrics) (threshold : Rat)
    (t : MetricType) (statsMean : Rat) : MetaImprovementAction :=
  { metric_type := t, action_type := "optimization", target_metric := t,
    current_value := (history.getLast?.map (fun m => getMetricValue m t)).getD 0,
    target_value := statsMean + 0,
    threshold := threshold }

/-- Embedding of `_evaluate_performance` (`meta_agent.py:231`): no-op when the history is
empty or shorter than `min_samples_for_evaluation`; otherwise, for each
metric type in enum order, appends an improvement action when the recent
trend is negative and the recent mean exceeds `improvement_threshold`.
`evalStep` is the body of that per-metric-type loop. -/
def evalStep (hist : List SystemMetrics) (threshold : Rat)
    (s : MetaAgentState) (t : MetricType) : MetaAgentState :=
  let stats := calculateMetricStats hist t
  if stats.2 < 0 ∧ threshold < stats.1 then
    { s with improvement_history := s.improvement_history ++
        [improvementActionFor hist threshold t stats.1] }
  else s

def evaluatePerformance (st : MetaAgentState) : MetaAgentState :=
  if st.metrics_history = [] then st
  else if st.metrics_history.length < minSamplesForEvaluation then st
  else
    MetricType.all.foldl (evalStep st.metrics_history st.improvement_threshold) st

/-- Embedding of `record_metrics(metrics)` (`meta_agent.py:155`): appends to both
histories, then awaits `_evaluate_performance()` before returning. -/
def recordMetrics (st : MetaAgentState) (m : SystemMetrics) : MetaAgentState :=
  evaluatePerformance { st with
    metrics_history := st.metrics_history ++ [m],
    performance_history := st.performance_history ++ [m] }

/-! Embedding of `extract_common_factors` (`meta_agent.py:424`). -/

/-- A context value: Python values are duck-typed; the contexts analysed here
hold strings or numbers. -/
inductive CtxValue where
  | str (s : String)
  | num (q : Rat)
  deriving DecidableEq, Repr

/-- The decision records read by `extract_common_factors`: the function
accesses exactly the attributes `success_rate` and `context` of each element
of `decision_history` (nb: the repository's `DecisionOutcome` dataclass
defines `success : bool` but no `success_rate` field). -/
structure DecisionRecord where
  success_rate : Rat
  context : List (String × CtxValue)
  deriving DecidableEq, Repr

/-- Insertion-ordered key collection: the order in which keys first enter the
`common_factors` dict as the loop runs over decisions and context items. -/
def contextKeys (decisions : List DecisionRecord) : List String :=
  decisions.foldl
    (fun acc d => d.context.foldl
      (fun a kv => if kv.1 ∈ a then a else a ++ [kv.1]) acc)
    []

/-- Values `common_factors[key]`: the values of `key` over the given decisions, in
decision order (one per decision whose context has the key). -/
def collectValues (decisions : List DecisionRecord) (key : String) : List CtxValue :=
  decisions.filterMap (fun d => dget d.context key)

/-- One comparison step of `max(set(values), key=values.count)`: keep the
candidate with the larger multiplicity in `values`. -/
def mostCommonStep (values : List CtxValue) (best : Option CtxValue) (w : CtxValue) :
    Option CtxValue :=
  match best with
  | none => some w
  | some b => if values.count b < values.count w then some w else best

/-- Embedding of `max(set(values), key=values.count)`: a value of maximal multiplicity.
Python iterates the set in unspecified (hash) order, so ties are broken
arbitrarily; this embedding keeps the earliest maximal element, which agrees
with Python whenever the maximum is unique — and any tie-break yields a value
of maximal multiplicity, which is all the theorems use. -/
def mostCommon (values : List CtxValue) : Option CtxValue :=
  values.dedup.foldl (mostCommonStep values) none

/-- Embedding of `extract_common_factors(success_threshold)` (`meta_agent.py:424`):
filters the decisions with `success_rate >= success_threshold`, returns `{}`
when none qualify, and otherwise keeps, for every context key collected over
the successful subset, its most common value — provided the key occurred in
at least half of the successful decisions
(`len(values) >= len(successful_decisions) / 2`, i.e.
`2 * len(values) >= len(successful)` under exact arithmetic). -/
def extractCommonFactors (decisions : List DecisionRecord) (success_threshold : Rat) :
    List (String × CtxValue) :=
  let successful := decisions.filter (fun d => success_threshold ≤ d.success_rate)
  if successful = [] then []
  else
    (contextKeys successful).filterMap (fun key =>
      let values := collectValues successful key
      if successful.length ≤ 2 * values.length then
        (mostCommon values).map (fun v => (key, v))
      else none)

/-! Helper lemmas about the store embedding. -/

theorem applyWritesFoldAux (module : String) (params : List (String × Rat)) :
    ∀ (cfg : Config) (ch : List (String × (Option Rat × Rat))),
      (params.foldl
        (fun acc pv =>
          let key := module ++ "_" ++ pv.1
          (dset acc.1 key pv.2, acc.2 ++ [(pv.1, (dget acc.1 key, pv.2))]))
        (cfg, ch)).1
      = params.foldl (fun c pv => dset c (module ++ "_" ++ pv.1) pv.2) cfg := by
  induction params with
  | nil => intro cfg ch; rfl
  | cons hd t ih => intro cfg ch; exact ih _ _

theorem applyWrites_fst (module : String) (cfg : Config) (params : List (String × Rat)) :
    (applyWrites module cfg params).1
      = params.foldl (fun c pv => dset c (module ++ "_" ++ pv.1) pv.2) cfg :=
  applyWritesFoldAux module params cfg []

theorem applyOptimization_fst (cfg : Config) (opt : Proposal) :
    (applyOptimization cfg opt).1
      = opt.parameters.foldl (fun c pv => dset c (opt.module ++ "_" ++ pv.1) pv.2) cfg := by
  unfold applyOptimization
  cases opt.rollback_data <;> simp [applyWrites_fst]

theorem dget_foldl_dset_ne (module : String) (l : List (String × Rat)) (p : String)
    (h : ∀ pv ∈ l, pv.1 ≠ p) :
    ∀ cfg : Config,
      dget (l.foldl (fun c pv => dset c (module ++ "_" ++ pv.1) pv.2) cfg)
          (module ++ "_" ++ p)
        = dget cfg (module ++ "_" ++ p) := by
  induction l with
  | nil => intro cfg; rfl
  | cons hd t ih =>
    intro cfg
    have hhd : hd.1 ≠ p := h hd (List.mem_cons_self _ _)
    have hkey : (module ++ "_" ++ p) ≠ (module ++ "_" ++ hd.1) :=
      fun he => hhd (key_inj _ _ _ he.symm)
    rw [List.foldl_cons, ih (fun pv hpv => h pv (List.mem_cons_of_mem _ hpv)),
      dget_dset_ne _ _ _ _ hkey]

theorem dget_foldl_dset (module : String) :
    ∀ (l : List (String × Rat)) (p : String) (v₀ : Rat),
      (l.map Prod.fst).Nodup → dget l p = some v₀ →
      ∀ cfg : Config,
        dget (l.foldl (fun c pv => dset c (module ++ "_" ++ pv.1) pv.2) cfg)
            (module ++ "_" ++ p)
          = some v₀ := by
  intro l
  induction l with
  | nil => intro p v₀ _ hl; simp [dget] at hl
  | cons hd t ih =>
    intro p v₀ hnd hl cfg
    obtain ⟨q, w⟩ := hd
    simp only [List.map_cons, List.nodup_cons] at hnd
    obtain ⟨hq, hnd'⟩ := hnd
    by_cases hqp : q = p
    · subst hqp
      have hw : w = v₀ := by simpa [dget] using hl
      subst hw
      rw [List.foldl_cons]
      have hne : ∀ pv ∈ t, pv.1 ≠ q := by
        intro pv hpv heq
        exact hq (heq ▸ List.mem_map_of_mem Prod.fst hpv)
      rw [dget_foldl_dset_ne module t q hne (dset cfg (module ++ "_" ++ q) w)]
      exact dget_dset_self ..
    · have hl' : dget t p = some v₀ := by simpa [dget, hqp] using hl
      rw [List.foldl_cons]
      exact ih p v₀ hnd' hl' _

theorem dget_of_mem_nodup {α : Type} :
    ∀ (l : List (String × α)) (p : String) (v : α),
      (l.map Prod.fst).Nodup → (p, v) ∈ l → dget l p = some v := by
  intro l
  induction l with
  | nil => intro p v _ h; cases h
  | cons hd t ih =>
    intro p v hnd hm
    obtain ⟨q, w⟩ := hd
    simp only [List.map_cons, List.nodup_cons] at hnd
    obtain ⟨hq, hnd'⟩ := hnd
    rcases List.mem_cons.mp hm with he | ht
    · have hp : p = q := congrArg Prod.fst he
      have hv : v = w := congrArg Prod.snd he
      subst hp; subst hv
      simp [dget]
    · have hp : p ∈ t.map Prod.fst := List.mem_map_of_mem Prod.fst ht
      have hqp : q ≠ p := fun he' => hq (he' ▸ hp)
      simp [dget, hqp, ih p v hnd' ht]

theorem rollbackOptimization_some (cfg : Config) (opt : OptimizationResult)
    (rb : List (String × Rat)) (h : opt.rollback_data = some rb) (hne : rb ≠ []) :
    rollbackOptimization cfg opt
      = rb.foldl (fun c pv => dset c (opt.target_module ++ "_" ++ pv.1) pv.2) cfg := by
  unfold rollbackOptimization
  rw [h]
  simp [hne]

/-! Concrete store and proposals used in the C1, C2 and C4 theorems; they
realize the spec scenario of the `api_client_request_timeout` tunable
(safe range `(5, 30)`, pre-apply value `10`). -/

def c1Cfg : Config := [("api_client_request_timeout", 10)]

def c1Prop : Proposal :=
  { otype := .PARAMETER_TUNING, module := "api_client",
    parameters := [("request_timeout", 5)], rollback_data := none }

def c2Prop : Proposal :=
  { otype := .PARAMETER_TUNING, module := "api_client",
    parameters := [("request_timeout", 100)],
    rollback_data := some [("request_timeout", 10)] }

def c4Prop : Proposal :=
  { otype := .PARAMETER_TUNING, module := "api_client",
    parameters := [("request_timeout", 5)],
    rollback_data := some [("request_timeout", 10)] }

/-- C1 counterexample: a proposal whose application fails (its dict lacks the
`rollback_data` key, so building the result raises after the writes) returns
`success = false`, yet the Configuration Store afterward holds the newly
written value `5`, not its pre-apply value `10` — the store is not reverted
to its pre-apply state. -/
theorem C1_counterexample :
    (applyOptimization c1Cfg c1Prop).2.success = false ∧
    dget (applyOptimization c1Cfg c1Prop).1 "api_client_request_timeout" = some 5 ∧
    dget c1Cfg "api_client_request_timeout" = some 10 := by
  decide

/-- C1 (amended): when applying a proposal fails (the `KeyError` on a missing
`rollback_data` key is raised only after the write loop), `_apply_optimization`
returns `success = false` with empty `changes_made` but performs no revert:
the store keeps exactly the state produced by the parameter writes. -/
theorem C1_apply_failure_keeps_writes (cfg : Config) (opt : Proposal)
    (h : opt.rollback_data = none) :
    (applyOptimization cfg opt).2.success = false ∧
    (applyOptimization cfg opt).2.changes_made = [] ∧
    (applyOptimization cfg opt).1 = (applyWrites opt.module cfg opt.parameters).1 := by
  unfold applyOptimization
  rw [h]
  exact ⟨rfl, rfl, rfl⟩

/-- C1 witness: the amended theorem applied to the concrete failing proposal. -/
theorem C1_apply_failure_keeps_writes_witness :
    (applyOptimization c1Cfg c1Prop).2.success = false ∧
    (applyOptimization c1Cfg c1Prop).2.changes_made = [] ∧
    (applyOptimization c1Cfg c1Prop).1 = (applyWrites c1Prop.module c1Cfg c1Prop.parameters).1 :=
  C1_apply_failure_keeps_writes c1Cfg c1Prop rfl

/-- C2 counterexample: applying a proposal that sets
`api_client.request_timeout` to `100`, outside its configured safe range
`(5, 30)`, does not fail cleanly: it succeeds and the Configuration Store
afterward holds the out-of-range value `100`. -/
theorem C2_counterexample :
    (applyOptimization c1Cfg c2Prop).2.success = true ∧
    dget (applyOptimization c1Cfg c2Prop).1 "api_client_request_timeout" = some 100 ∧
    dget ((dget optimizationConfigs "api_client").getD []) "request_timeout" = some (5, 30) ∧
    ¬((100 : Rat) ≤ 30) := by
  decide

/-- C2 (amended): `_apply_optimization` performs no range validation at all —
for any proposal carrying `rollback_data`, the apply succeeds and every
proposed value (in range or not) is stored verbatim in the Configuration
Store; values are clamped (one-sidedly) only at generation time. -/
theorem C2_apply_stores_unvalidated (cfg : Config) (opt : Proposal)
    (rb : List (String × Rat)) (hrb : opt.rollback_data = some rb)
    (hnd : (opt.parameters.map Prod.fst).Nodup) :
    (applyOptimization cfg opt).2.success = true ∧
    ∀ pv ∈ opt.parameters,
      dget (applyOptimization cfg opt).1 (opt.module ++ "_" ++ pv.1) = some pv.2 := by
  constructor
  · unfold applyOptimization
    rw [hrb]
  · intro pv hpv
    rw [applyOptimization_fst]
    exact dget_foldl_dset opt.module opt.parameters pv.1 pv.2 hnd
      (dget_of_mem_nodup _ _ _ hnd hpv) cfg

/-- C2 witness: the amended theorem applied to the out-of-range proposal. -/
theorem C2_apply_stores_unvalidated_witness :
    (applyOptimization c1Cfg c2Prop).2.success = true ∧
    dget (applyOptimization c1Cfg c2Prop).1 ("api_client" ++ "_" ++ "request_timeout")
      = some 100 :=
  ⟨(C2_apply_stores_unvalidated c1Cfg c2Prop [("request_timeout", 10)] rfl (by decide)).1,
   (C2_apply_stores_unvalidated c1Cfg c2Prop [("request_timeout", 10)] rfl (by decide)).2
     ("request_timeout", 100) (by decide)⟩

/-- C3 counterexample: an impact dict containing a metric regressed by more
than 10% (`-0.2 < -0.1`) on which `_should_rollback` nevertheless returns
`false`, because only the average (`0.25`) is consulted. -/
theorem C3_counterexample :
    shouldRollback [("research_accuracy", -(1/5)), ("alert_relevance", 7/10)] = false ∧
    (-(1/5) : Rat) < -(1/10) := by
  refine ⟨?_, by norm_num⟩
  simp only [shouldRollback, minImprovementThreshold]
  norm_num
  simp

/-- C3 (amended): `_should_rollback` returns true exactly when the impact
dict is empty or the average delta is below the 5% minimum-improvement
threshold; there is no per-metric `-0.1` regression check (the `avg < 0`
disjunct of the source is subsumed by `avg < 0.05`). -/
theorem C3_should_rollback_iff (impact : List (String × Rat)) :
    shouldRollback impact = true ↔
      impact = [] ∨ (impact.map (·.2)).sum / impact.length < minImprovementThreshold := by
  unfold shouldRollback
  by_cases he : impact = []
  · simp [he]
  · simp only [if_neg he, Bool.or_eq_true, decide_eq_true_eq]
    constructor
    · rintro (h | h)
      · exact Or.inr (lt_trans h (by norm_num [minImprovementThreshold]))
      · exact Or.inr h
    · rintro (h | h)
      · exact absurd h he
      · exact Or.inr h

/-- C4 (confirmed): apply-then-rollback is a round trip on the Configuration
Store.  If the proposal's `rollback_data` maps each written parameter to its
pre-apply configured value, then immediately after apply each written key
reads its new value, and after `_rollback_optimization` each written key
reads its pre-apply value again. -/
theorem C4_apply_rollback_roundtrip (cfg : Config) (opt : Proposal)
    (rb : List (String × Rat)) (hrb : opt.rollback_data = some rb)
    (hndrb : (rb.map Prod.fst).Nodup) (hndp : (opt.parameters.map Prod.fst).Nodup)
    (hcover : ∀ pv ∈ opt.parameters,
      dget rb pv.1 = dget cfg (opt.module ++ "_" ++ pv.1) ∧ (dget rb pv.1).isSome) :
    ∀ pv ∈ opt.parameters,
      dget (applyOptimization cfg opt).1 (opt.module ++ "_" ++ pv.1) = some pv.2 ∧
      dget (rollbackOptimization (applyOptimization cfg opt).1 (applyOptimization cfg opt).2)
          (opt.module ++ "_" ++ pv.1)
        = dget cfg (opt.module ++ "_" ++ pv.1) := by
  intro pv hpv
  obtain ⟨hcv, hsome⟩ := hcover pv hpv
  obtain ⟨v₀, hv₀⟩ := Option.isSome_iff_exists.mp hsome
  have hcfg : dget cfg (opt.module ++ "_" ++ pv.1) = some v₀ := by rw [← hcv, hv₀]
  constructor
  · rw [applyOptimization_fst]
    exact dget_foldl_dset opt.module opt.parameters pv.1 pv.2 hndp
      (dget_of_mem_nodup _ _ _ hndp hpv) cfg
  · have hres : (applyOptimization cfg opt).2.rollback_data = some rb := by
      unfold applyOptimization
      rw [hrb]
    have hmod : (applyOptimization cfg opt).2.target_module = opt.module := by
      unfold applyOptimization
      cases opt.rollback_data <;> rfl
    have hne : rb ≠ [] := by
      intro h
      rw [h] at hv₀
      simp [dget] at hv₀
    rw [hcfg, rollbackOptimization_some _ _ rb hres hne]
    simp only [hmod]
    exact dget_foldl_dset opt.module rb pv.1 v₀ hndrb hv₀ _

/-- C4 witness: the spec's own scenario — `request_timeout` lowered from 10
to 5 reads 5 after apply and 10 again after rollback. -/
theorem C4_apply_rollback_roundtrip_witness :
    dget (applyOptimization c1Cfg c4Prop).1 ("api_client" ++ "_" ++ "request_timeout")
      = some 5 ∧
    dget (rollbackOptimization (applyOptimization c1Cfg c4Prop).1
          (applyOptimization c1Cfg c4Prop).2)
        ("api_client" ++ "_" ++ "request_timeout")
      = dget c1Cfg ("api_client" ++ "_" ++ "request_timeout") :=
  C4_apply_rollback_roundtrip c1Cfg c4Prop [("request_timeout", 10)] rfl (by decide)
    (by decide) (by decide) ("request_timeout", 5) (by decide)

/-! Impact measurement: claims C5 and C10. -/

theorem computeImpact_dget :
    ∀ (current baseline : List (String × Rat)) (m : String) (c b : Rat),
      dget current m = some c → dget baseline m = some b →
      dget (computeImpact current baseline) m = some (if 0 < b then (c - b) / b else 0) := by
  intro current
  induction current with
  | nil => intro baseline m c b hc _; simp [dget] at hc
  | cons hd t ih =>
    intro baseline m c b hc hb
    obtain ⟨k, v⟩ := hd
    by_cases hk : k = m
    · subst hk
      have hv : v = c := by simpa [dget] using hc
      subst hv
      simp only [computeImpact, List.filterMap_cons, hb]
      simp [dget]
    · have hc' : dget t m = some c := by simpa [dget, hk] using hc
      have htail := ih baseline m c b hc' hb
      simp only [computeImpact, List.filterMap_cons] at htail ⊢
      cases hdb : dget baseline k with
      | none => simpa [hdb] using htail
      | some b' => simpa [hdb, dget, hk] using htail

/-- Modelled from the spec (Impact Monitor, section 4.7): the
direction-normalized relative delta, `(current − baseline) / baseline` for
higher-is-better kinds and `(baseline − current) / baseline` for
lower-is-better kinds, so that positive always means improved. -/
def specRelativeDelta (lowerIsBetter : Bool) (baseline current : Rat) : Rat :=
  if lowerIsBetter then (baseline - current) / baseline
  else (current - baseline) / baseline

/-- C5 counterexample: for the lower-is-better kind `api_latency` improving
from baseline 10 to current 5, the code reports `-1/2` while the
direction-normalized delta of the claim is `+1/2`: the code's delta is not
normalized, so positive does not always mean improved. -/
theorem C5_counterexample :
    dget (computeImpact [("api_latency", 5)] [("api_latency", 10)]) "api_latency"
      = some (-(1/2)) ∧
    specRelativeDelta true 10 5 = 1/2 ∧
    ((-(1/2) : Rat) ≠ 1/2) := by
  refine ⟨?_, by norm_num [specRelativeDelta], by norm_num⟩
  have h := computeImpact_dget [("api_latency", 5)] [("api_latency", 10)] "api_latency" 5 10
    (by decide) (by decide)
  rw [h]
  norm_num

/-- C5 (amended): for every metric with positive baseline,
`_monitor_optimization_impact` reports `(current − baseline) / baseline`
regardless of the metric's direction; there is no lower-is-better
normalization. -/
theorem C5_impact_is_raw_delta (current baseline : List (String × Rat))
    (m : String) (c b : Rat) (hc : dget current m = some c)
    (hb : dget baseline m = some b) (hpos : 0 < b) :
    dget (computeImpact current baseline) m = some ((c - b) / b) := by
  rw [computeImpact_dget current baseline m c b hc hb, if_pos hpos]

/-- C5 witness: the raw-delta theorem at a concrete improving metric. -/
theorem C5_impact_is_raw_delta_witness :
    dget (computeImpact [("api_latency", 20)] [("api_latency", 10)]) "api_latency"
      = some (((20 : Rat) - 10) / 10) :=
  C5_impact_is_raw_delta [("api_latency", 20)] [("api_latency", 10)] "api_latency" 20 10
    (by decide) (by decide) (by norm_num)

/-- C10 (confirmed): when a metric's baseline is zero or negative,
`_monitor_optimization_impact` reports an impact of exactly `0` for that
metric instead of dividing by the baseline. -/
theorem C10_nonpositive_baseline_impact_zero (current baseline : List (String × Rat))
    (m : String) (c b : Rat) (hc : dget current m = some c)
    (hb : dget baseline m = some b) (hnp : b ≤ 0) :
    dget (computeImpact current baseline) m = some 0 := by
  rw [computeImpact_dget current baseline m c b hc hb, if_neg (not_lt.mpr hnp)]

/-- C10 witness: a metric whose baseline is `0` gets impact `0`, no division. -/
theorem C10_nonpositive_baseline_impact_zero_witness :
    dget (computeImpact [("response_time", 3)] [("response_time", 0)]) "response_time"
      = some 0 :=
  C10_nonpositive_baseline_impact_zero [("response_time", 3)] [("response_time", 0)]
    "response_time" 3 0 (by decide) (by decide) (by norm_num)

/-! Optimization-type decision: claim C6. -/

/-- Statement of the claim's decision chain, written from the spec's words
(`determine_type(actions)`, section 4.5): any emergency action wins, then any
decision-weights action, then touching the `api_latency` metric, then batch
size at least 3, else the default. -/
def specDetermineType (actions : List SIAction) : OptimizationType :=
  if ∃ a ∈ actions, a.action_type = "emergency_optimization" then
    .PARAMETER_TUNING
  else if ∃ a ∈ actions, a.action_type = "update_decision_weights" then
    .MODEL_UPDATE
  else if ∃ a ∈ actions, dget a.parameters "metric" = some "api_latency" then
    .API_OPTIMIZATION
  else if 3 ≤ actions.length then
    .RESOURCE_ALLOCATION
  else
    .PARAMETER_TUNING

/-- C6 (confirmed): `_determine_optimization_type` implements exactly the
claimed priority chain, for every batch of actions (in particular every
non-empty one). -/
theorem C6_determine_type_follows_priority_chain (actions : List SIAction) :
    determineOptimizationType actions = specDetermineType actions := by
  have e1 : ((actions.map (fun a => a.action_type)).contains "emergency_optimization" = true)
      ↔ ∃ a ∈ actions, a.action_type = "emergency_optimization" := by simp
  have e2 : ((actions.map (fun a => a.action_type)).contains "update_decision_weights" = true)
      ↔ ∃ a ∈ actions, a.action_type = "update_decision_weights" := by simp
  have e3 : ((actions.filterMap (fun a => dget a.parameters "metric")).contains
        "api_latency" = true)
      ↔ ∃ a ∈ actions, dget a.parameters "metric" = some "api_latency" := by simp
  simp only [determineOptimizationType, specDetermineType]
  split_ifs with h1 h2 h3 h4 h5 h6 h7 h8 h9 h10 h11 h12 h13 h14 <;>
    simp_all [e1, e2, e3]

/-! Parameter-tuning generation: claim C7. -/

theorem tuningAdjustment_nonneg (actions : List SIAction) : 0 ≤ tuningAdjustment actions := by
  unfold tuningAdjustment
  split <;> norm_num

theorem dget_filterMap_entries (cfg : Config) (module : String)
    (g : String → Rat × Rat → Rat → Rat) :
    ∀ (entries : List (String × (Rat × Rat))) (p : String) (lohi : Rat × Rat) (c : Rat),
      (entries.map Prod.fst).Nodup → (p, lohi) ∈ entries →
      dget cfg (module ++ "_" ++ p) = some c →
      dget (entries.filterMap (fun e =>
          (dget cfg (module ++ "_" ++ e.1)).map (fun cv => (e.1, g e.1 e.2 cv)))) p
        = some (g p lohi c) := by
  intro entries
  induction entries with
  | nil => intro p lohi c _ hm _; cases hm
  | cons hd t ih =>
    intro p lohi c hnd hm hc
    obtain ⟨q, r⟩ := hd
    simp only [List.map_cons, List.nodup_cons] at hnd
    obtain ⟨hq, hnd'⟩ := hnd
    rcases List.mem_cons.mp hm with he | ht
    · have hp : p = q := congrArg Prod.fst he
      have hr : lohi = r := congrArg Prod.snd he
      subst hp; subst hr
      simp only [List.filterMap_cons, hc, Option.map_some']
      simp [dget]
    · have hqp : q ≠ p := fun he' => hq (he' ▸ List.mem_map_of_mem Prod.fst ht)
      have htail := ih p lohi c hnd' ht hc
      simp only [List.filterMap_cons]
      cases hdq : dget cfg (module ++ "_" ++ q) with
      | none => simpa using htail
      | some cv =>
        simp only [Option.map_some']
        simpa [dget, hqp] using htail

/-- A store holding only the `monitoring_interval` tunable of the
`business_intelligence` module (safe range `(60, 600)`), at value 300. -/
def c7Cfg : Config := [("business_intelligence_monitoring_interval", 300)]

/-- A single non-urgent action (priority 3, so the 10% adjustment applies). -/
def c7Actions : List SIAction :=
  [{ action_type := "optimize_performance", priority := 3, parameters := [] }]

/-- C7 counterexample: `monitoring_interval` — a parameter whose name implies
an interval — is *increased* from 300 to 330 by parameter-tuning generation,
because the source only decreases names ending in `'timeout'`. -/
theorem C7_counterexample :
    generateParameterTuning c7Cfg "business_intelligence" c7Actions
      = some { otype := .PARAMETER_TUNING, module := "business_intelligence",
               parameters := [("monitoring_interval", 330)],
               rollback_data := some [("monitoring_interval", 300)] } ∧
    (300 : Rat) < 330 := by
  have h1 : generateParameterTuning c7Cfg "business_intelligence" c7Actions
      = some { otype := .PARAMETER_TUNING, module := "business_intelligence",
               parameters := [("monitoring_interval",
                 tunedValue c7Actions "monitoring_interval" 60 600 300)],
               rollback_data := some [("monitoring_interval", 300)] } := by rfl
  have hpe : pyEndsWith "monitoring_interval" "timeout" = false := by decide
  have h2 : tunedValue c7Actions "monitoring_interval" 60 600 300 = 330 := by
    simp only [tunedValue, tuningAdjustment, hpe, c7Actions, List.any_cons, List.any_nil]
    norm_num
  rw [h2] at h1
  exact ⟨h1, by norm_num⟩

/-- C7 (amended): for every registered tunable with a configured current
value, parameter-tuning generation emits the adjusted value and records the
pre-change value in `rollback_data`; the adjustment is 30% when any action
has priority at least 4 and 10% otherwise; names ending in `'timeout'` (and
only those) are decreased clamped at the range minimum, every other name —
intervals included — is increased clamped at the range maximum. -/
theorem C7_parameter_tuning_shape (cfg : Config) (module : String) (actions : List SIAction)
    (moduleCfg : List (String × (Rat × Rat)))
    (hmod : dget optimizationConfigs module = some moduleCfg)
    (hnd : (moduleCfg.map Prod.fst).Nodup)
    (p : String) (lo hi : Rat) (hp : (p, (lo, hi)) ∈ moduleCfg)
    (c : Rat) (hc : dget cfg (module ++ "_" ++ p) = some c) (h0 : 0 ≤ c) :
    (generateParameterTuning cfg module actions).map
        (fun prop => dget (prop.rollback_data.getD []) p) = some (some c) ∧
    (generateParameterTuning cfg module actions).map
        (fun prop => dget prop.parameters p)
      = some (some (tunedValue actions p lo hi c)) ∧
    (pyEndsWith p "timeout" = true → lo ≤ c → tunedValue actions p lo hi c ≤ c) ∧
    (pyEndsWith p "timeout" = false → c ≤ hi → c ≤ tunedValue actions p lo hi c) := by
  have hgen : generateParameterTuning cfg module actions
      = some { otype := .PARAMETER_TUNING, module := module,
               parameters := (parameterTuningEntries cfg module actions moduleCfg).1,
               rollback_data := some (parameterTuningEntries cfg module actions moduleCfg).2 } := by
    unfold generateParameterTuning
    rw [hmod]
  refine ⟨?_, ?_, ?_, ?_⟩
  · rw [hgen]
    simp only [Option.map_some', Option.getD_some, parameterTuningEntries]
    exact congrArg some
      (dget_filterMap_entries cfg module (fun n r cv => cv) moduleCfg p (lo, hi) c hnd hp hc)
  · rw [hgen]
    simp only [Option.map_some', parameterTuningEntries]
    exact congrArg some
      (dget_filterMap_entries cfg module (fun n r cv => tunedValue actions n r.1 r.2 cv)
        moduleCfg p (lo, hi) c hnd hp hc)
  · intro hT hlo
    have hadj := tuningAdjustment_nonneg actions
    have ht' : tunedValue actions p lo hi c = max lo (c * (1 - tuningAdjustment actions)) := by
      simp [tunedValue, hT]
    have hmul : c * (1 - tuningAdjustment actions) ≤ c := by nlinarith
    rw [ht']
    exact max_le hlo hmul
  · intro hF hhi
    have hadj := tuningAdjustment_nonneg actions
    have ht' : tunedValue actions p lo hi c = min hi (c * (1 + tuningAdjustment actions)) := by
      simp [tunedValue, hF]
    have hmul : c ≤ c * (1 + tuningAdjustment actions) := by nlinarith
    rw [ht']
    exact le_min hhi hmul

/-- A store holding the `business_intelligence` cache timeout at 3600. -/
def c7wCfg : Config := [("business_intelligence_cache_timeout", 3600)]

/-- C7 witness: the amended theorem at the `cache_timeout` tunable
(range `(300, 7200)`, current value 3600, non-urgent batch). -/
theorem C7_parameter_tuning_shape_witness :
    (generateParameterTuning c7wCfg "business_intelligence" c7Actions).map
        (fun prop => dget (prop.rollback_data.getD []) "cache_timeout") = some (some 3600) ∧
    (generateParameterTuning c7wCfg "business_intelligence" c7Actions).map
        (fun prop => dget prop.parameters "cache_timeout")
      = some (some (tunedValue c7Actions "cache_timeout" 300 7200 3600)) ∧
    tunedValue c7Actions "cache_timeout" 300 7200 3600 ≤ 3600 := by
  have T := C7_parameter_tuning_shape c7wCfg "business_intelligence" c7Actions
    [("cache_timeout", (300, 7200)), ("min_alert_priority", (2, 4)),
     ("monitoring_interval", (60, 600)), ("max_concurrent_requests", (5, 20))]
    rfl (by decide) "cache_timeout" 300 7200 (by decide) 3600 (by decide) (by norm_num)
  exact ⟨T.1, T.2.1, T.2.2.1 (by decide) (by norm_num)⟩

/-! Metric recording: claim C8. -/

theorem evalStep_spec (hist : List SystemMetrics) (thr : Rat) (s : MetaAgentState)
    (t : MetricType) :
    (evalStep hist thr s t).metrics_history = s.metrics_history ∧
    (evalStep hist thr s t).performance_history = s.performance_history ∧
    ∀ a ∈ (evalStep hist thr s t).improvement_history,
      a ∈ s.improvement_history ∨ a.action_type = "optimization" := by
  simp only [evalStep]
  split
  · refine ⟨rfl, rfl, fun a ha => ?_⟩
    rcases List.mem_append.mp ha with h | h
    · exact Or.inl h
    · have : a = improvementActionFor hist thr t (calculateMetricStats hist t).1 :=
        List.mem_singleton.mp h
      exact Or.inr (this ▸ rfl)
  · exact ⟨rfl, rfl, fun a ha => Or.inl ha⟩

theorem evalFold_spec (hist : List SystemMetrics) (thr : Rat) :
    ∀ (ts : List MetricType) (s : MetaAgentState),
      (ts.foldl (evalStep hist thr) s).metrics_history = s.metrics_history ∧
      (ts.foldl (evalStep hist thr) s).performance_history = s.performance_history ∧
      ∀ a ∈ (ts.foldl (evalStep hist thr) s).improvement_history,
        a ∈ s.improvement_history ∨ a.action_type = "optimization" := by
  intro ts
  induction ts with
  | nil => intro s; exact ⟨rfl, rfl, fun a ha => Or.inl ha⟩
  | cons t ts ih =>
    intro s
    rw [List.foldl_cons]
    obtain ⟨m1, p1, i1⟩ := ih (evalStep hist thr s t)
    obtain ⟨m0, p0, i0⟩ := evalStep_spec hist thr s t
    refine ⟨by rw [m1, m0], by rw [p1, p0], fun a ha => ?_⟩
    rcases i1 a ha with h | h
    · exact i0 a h
    · exact Or.inr h

theorem evaluatePerformance_spec (st : MetaAgentState) :
    (evaluatePerformance st).metrics_history = st.metrics_history ∧
    (evaluatePerformance st).performance_history = st.performance_history ∧
    ∀ a ∈ (evaluatePerformance st).improvement_history,
      a ∈ st.improvement_history ∨ a.action_type = "optimization" := by
  unfold evaluatePerformance
  split
  · exact ⟨rfl, rfl, fun a ha => Or.inl ha⟩
  · split
    · exact ⟨rfl, rfl, fun a ha => Or.inl ha⟩
    · exact evalFold_spec st.metrics_history st.improvement_threshold MetricType.all st

/-- A fresh `MetaAgent` with the default `improvement_threshold = 0.7`. -/
def c8State : MetaAgentState :=
  { metrics_history := [], performance_history := [], improvement_history := [],
    improvement_threshold := 7/10 }

/-- A snapshot whose `latency` value 10 is more than 1.5 times the 0.7
threshold — acute degradation in the claim's sense. -/
def c8Snapshot : SystemMetrics :=
  { response_time := 0, accuracy := 0, error_rate := 0, success_rate := 0,
    latency := 10, cpu_usage := 0, memory_usage := 0, throughput := 0,
    user_satisfaction := 0 }

/-- C8 counterexample: recording a single acutely degraded snapshot
(latency 10 is at least 1.5 times the 0.7 threshold) enqueues no improvement
action at all — there is no synchronous priority-5 emergency fast path in
`record_metrics` (and the `ImprovementAction` dataclass has no priority
field to begin with). -/
theorem C8_counterexample :
    ((3/2 : Rat) * (7/10) ≤ 10) ∧
    (recordMetrics c8State c8Snapshot).improvement_history = [] := by
  constructor
  · norm_num
  · rfl

/-- C8 (amended): `record_metrics` appends the snapshot to both histories
and runs the periodic evaluation; every action it ever enqueues has
`action_type = "optimization"` — never an emergency action, and no action
carries a priority. -/
theorem C8_record_metrics_no_emergency_action (st : MetaAgentState) (m : SystemMetrics) :
    (recordMetrics st m).metrics_history = st.metrics_history ++ [m] ∧
    (recordMetrics st m).performance_history = st.performance_history ++ [m] ∧
    ∀ a ∈ (recordMetrics st m).improvement_history,
      a ∈ st.improvement_history ∨ a.action_type = "optimization" := by
  unfold recordMetrics
  obtain ⟨h1, h2, h3⟩ := evaluatePerformance_spec
    { st with metrics_history := st.metrics_history ++ [m],
              performance_history := st.performance_history ++ [m] }
  exact ⟨h1, h2, h3⟩

/-- An action already present in the queue, used to instantiate the
membership hypothesis of the amended C8 theorem. -/
def c8wAction : MetaImprovementAction :=
  { metric_type := .LATENCY, action_type := "optimization", target_metric := .LATENCY,
    current_value := 0, target_value := 0, threshold := 0 }

/-- A state already holding `c8wAction`. -/
def c8wState : MetaAgentState :=
  { metrics_history := [], performance_history := [], improvement_history := [c8wAction],
    improvement_threshold := 1 }

/-- C8 witness: the amended theorem at a concrete state and snapshot. -/
theorem C8_record_metrics_no_emergency_action_witness :
    (recordMetrics c8wState c8Snapshot).metrics_history
      = c8wState.metrics_history ++ [c8Snapshot] ∧
    (c8wAction ∈ c8wState.improvement_history ∨ c8wAction.action_type = "optimization") :=
  ⟨(C8_record_metrics_no_emergency_action c8wState c8Snapshot).1,
   (C8_record_metrics_no_emergency_action c8wState c8Snapshot).2.2 c8wAction (by decide)⟩

/-! Common-factor extraction: claim C9. -/

theorem mostCommonFoldMem (values : List CtxValue) :
    ∀ (cands : List CtxValue) (acc : Option CtxValue) (v : CtxValue),
      (∀ b, acc = some b → b ∈ values) → (∀ c ∈ cands, c ∈ values) →
      cands.foldl (mostCommonStep values) acc = some v →
      v ∈ values := by
  intro cands
  induction cands with
  | nil => intro acc v hacc _ hfold; exact hacc v hfold
  | cons c t ih =>
    intro acc v hacc hcands hfold
    rw [List.foldl_cons] at hfold
    refine ih _ v ?_ (fun x hx => hcands x (List.mem_cons_of_mem _ hx)) hfold
    intro b hb
    cases acc with
    | none =>
      have hcb : c = b := by simpa [mostCommonStep] using hb
      exact hcb ▸ hcands c (List.mem_cons_self _ _)
    | some b₀ =>
      by_cases h : values.count b₀ < values.count c
      · have hcb : c = b := by simpa [mostCommonStep, h] using hb
        exact hcb ▸ hcands c (List.mem_cons_self _ _)
      · have hbb : b₀ = b := by simpa [mostCommonStep, h] using hb
        exact hbb ▸ hacc b₀ rfl

theorem mostCommon_mem (values : List CtxValue) (v : CtxValue)
    (h : mostCommon values = some v) : v ∈ values := by
  unfold mostCommon at h
  exact mostCommonFoldMem values values.dedup none v (fun b hb => nomatch hb)
    (fun c hc => List.mem_dedup.mp hc) h

theorem mostCommonFoldCount (values : List CtxValue) :
    ∀ (cands : List CtxValue) (acc : Option CtxValue) (v : CtxValue),
      cands.foldl (mostCommonStep values) acc = some v →
      (∀ w ∈ cands, values.count w ≤ values.count v) ∧
      (∀ b, acc = some b → values.count b ≤ values.count v) := by
  intro cands
  induction cands with
  | nil =>
    intro acc v hfold
    simp only [List.foldl_nil] at hfold
    refine ⟨fun w hw => absurd hw (List.not_mem_nil w), fun b hb => ?_⟩
    rw [hb] at hfold
    obtain rfl : b = v := by simpa using hfold
    exact le_refl _
  | cons c t ih =>
    intro acc v hfold
    rw [List.foldl_cons] at hfold
    obtain ⟨ht, hacc⟩ := ih (mostCommonStep values acc c) v hfold
    have hc : values.count c ≤ values.count v := by
      cases acc with
      | none => exact hacc c rfl
      | some b₀ =>
        by_cases h : values.count b₀ < values.count c
        · exact hacc c (by simp [mostCommonStep, h])
        · exact le_trans (not_lt.mp h) (hacc b₀ (by simp [mostCommonStep, h]))
    refine ⟨fun w hw => ?_, fun b hb => ?_⟩
    · rcases List.mem_cons.mp hw with rfl | hw'
      · exact hc
      · exact ht w hw'
    · rw [hb] at hacc
      by_cases h : values.count b < values.count c
      · exact le_trans (le_of_lt h) hc
      · exact hacc b (by simp [mostCommonStep, h])

/-- A value returned by `max(set(values), key=values.count)` has maximal
multiplicity among the collected values. -/
theorem mostCommon_count_ge (values : List CtxValue) (v : CtxValue)
    (h : mostCommon values = some v) :
    ∀ w, values.count w ≤ values.count v := by
  intro w
  by_cases hw : w ∈ values
  · exact (mostCommonFoldCount values values.dedup none v h).1 w (List.mem_dedup.mpr hw)
  · rw [List.count_eq_zero_of_not_mem hw]
    exact Nat.zero_le _

/-- Ten decisions of one decision type, all successful, whose `industry`
context value is `"tech"` for 4, `"bio"` for 3 and `"fin"` for 3 — the
plurality value is shared by only 40% of the group. -/
def c9Decisions : List DecisionRecord :=
  [⟨1, [("industry", .str "tech")]⟩, ⟨1, [("industry", .str "tech")]⟩,
   ⟨1, [("industry", .str "tech")]⟩, ⟨1, [("industry", .str "tech")]⟩,
   ⟨1, [("industry", .str "bio")]⟩, ⟨1, [("industry", .str "bio")]⟩,
   ⟨1, [("industry", .str "bio")]⟩, ⟨1, [("industry", .str "fin")]⟩,
   ⟨1, [("industry", .str "fin")]⟩, ⟨1, [("industry", .str "fin")]⟩]

/-- C9 counterexample: on ten successful decision outcomes whose `industry`
values are 40% `"tech"`, the extractor still reports `industry = "tech"` —
a categorical value shared by fewer than 70% of the group — and it reports a
single value, never `{min, max, mean}` statistics.  (The threshold argument
is 1 here; the source's default is 0.8, which changes nothing since every
record has success rate 1.) -/
theorem C9_counterexample :
    extractCommonFactors c9Decisions 1 = [("industry", .str "tech")] ∧
    c9Decisions.length = 10 ∧
    (collectValues (c9Decisions.filter (fun d => (1 : Rat) ≤ d.success_rate))
        "industry").count (.str "tech") = 4 ∧
    ¬(7 * 10 ≤ 10 * 4) := by
  decide

/-- C9 (amended): every factor `extract_common_factors` reports is a *most
frequent* value of a context key that occurs in at least *half* (not 70%) of
the decisions whose `success_rate` meets the threshold: the reported value
occurs among that key's collected values and its multiplicity there is at
least that of every other value.  No numeric `{min, max, mean}` summary and
no 70% requirement exist in the code. -/
theorem C9_extract_reports_plurality (ds : List DecisionRecord) (th : Rat)
    (k : String) (v : CtxValue)
    (h : (k, v) ∈ extractCommonFactors ds th) :
    v ∈ collectValues (ds.filter (fun d => th ≤ d.success_rate)) k ∧
    (ds.filter (fun d => th ≤ d.success_rate)).length
      ≤ 2 * (collectValues (ds.filter (fun d => th ≤ d.success_rate)) k).length ∧
    ∀ w, (collectValues (ds.filter (fun d => th ≤ d.success_rate)) k).count w
      ≤ (collectValues (ds.filter (fun d => th ≤ d.success_rate)) k).count v := by
  unfold extractCommonFactors at h
  by_cases he : ds.filter (fun d => th ≤ d.success_rate) = []
  · rw [if_pos he] at h
    cases h
  · rw [if_neg he] at h
    obtain ⟨key, hkey, hf⟩ := List.mem_filterMap.mp h
    by_cases hg : (ds.filter (fun d => th ≤ d.success_rate)).length
        ≤ 2 * (collectValues (ds.filter (fun d => th ≤ d.success_rate)) key).length
    · rw [if_pos hg] at hf
      obtain ⟨v', hv', hpair⟩ := Option.map_eq_some'.mp hf
      have hk : key = k := congrArg Prod.fst hpair
      have hv : v' = v := congrArg Prod.snd hpair
      subst hk
      subst hv
      exact ⟨mostCommon_mem _ _ hv', hg, mostCommon_count_ge _ _ hv'⟩
    · rw [if_neg hg] at hf
      cases hf

/-- C9 witness: the amended theorem at the ten concrete decisions, with the
maximal-frequency conclusion instantiated at the runner-up value `"bio"`. -/
theorem C9_extract_reports_plurality_witness :
    CtxValue.str "tech"
        ∈ collectValues (c9Decisions.filter (fun d => (1 : Rat) ≤ d.success_rate)) "industry" ∧
    (c9Decisions.filter (fun d => (1 : Rat) ≤ d.success_rate)).length
      ≤ 2 * (collectValues (c9Decisions.filter (fun d => (1 : Rat) ≤ d.success_rate))
          "industry").length ∧
    (collectValues (c9Decisions.filter (fun d => (1 : Rat) ≤ d.success_rate))
          "industry").count (.str "bio")
      ≤ (collectValues (c9Decisions.filter (fun d => (1 : Rat) ≤ d.success_rate))
          "industry").count (.str "tech") :=
  ⟨(C9_extract_reports_plurality c9Decisions 1 "industry" (.str "tech") (by decide)).1,
   (C9_extract_reports_plurality c9Decisions 1 "industry" (.str "tech") (by decide)).2.1,
   (C9_extract_reports_plurality c9Decisions 1 "industry" (.str "tech") (by decide)).2.2
     (.str "bio")⟩

end AtenaAI
